import Mathlib

/-
Verification of the group-information export plugin (src/main.py).

The development shallowly embeds the plugin's data-processing core:
Python values are modelled by the inductive `PyVal` (dictionaries are
insertion-ordered association lists, as Python dicts are), the helper
functions `_format_timestamp` and `_clean_excel_invalid_chars` become
`formatTimestamp` and `cleanExcelInvalidChars`, the per-member
normalization blocks of `export_group_data` / `export_all_groups_data`
become `processMemberSingle` / `processMemberMulti`, the multi-group
sheet loop becomes `exportAllGroupsLoop`, and the two command handlers
become pure functions from an explicit environment to the list of
emitted replies plus the network calls performed.

Modelling notes (deviations forced by the embedding):
- Python floats are not modelled; numeric timestamps are integers
  (bools count as numbers, as `isinstance(True, int)` holds in Python).
- `datetime.fromtimestamp(t).strftime(...)` is modelled by `renderAt`,
  parameterised by the local-timezone offset in seconds; it returns
  `none` exactly where Python raises (year outside 1..9999), mirroring
  the `except` branch of `_format_timestamp`.
- the chat reply channel (`yield event...`) is modelled as an emitted
  message list and never raises, so the fallback `upload_group_file`
  path of the source is unreachable and not modelled.
-/

namespace GroupInfoExport

/-- A Python value as used by the plugin: `None`, booleans, integers,
strings, and dictionaries (insertion-ordered key/value lists). -/
inductive PyVal where
  | none
  | bool (b : Bool)
  | int (n : Int)
  | str (s : String)
  | dict (d : List (String × PyVal))

/-- Python truthiness (`if value:`) for the modelled values. -/
def pyTruthy : PyVal → Bool
  | .none => false
  | .bool b => b
  | .int n => n != 0
  | .str s => s != ""
  | .dict d => !d.isEmpty

/-- `isinstance(v, (int, float))` together with the numeric value used
by `datetime.fromtimestamp`; Python bools are ints (`True == 1`). -/
def numValue : PyVal → Option Int
  | .int n => some n
  | .bool b => some (if b then 1 else 0)
  | _ => Option.none

/-- Whether the value is a Python dict (`isinstance(member, dict)`). -/
def isDict : PyVal → Bool
  | .dict _ => true
  | _ => false

/-- An entry list for a Python dict. -/
abbrev PyDict := List (String × PyVal)

/-- First value stored under key `k` (Python `d[k]` / `k in d` lookup;
real dicts have unique keys, so "first" is exact). -/
def dictFind? (d : PyDict) (k : String) : Option PyVal :=
  match d with
  | [] => Option.none
  | (k₁, v) :: rest => if k₁ = k then some v else dictFind? rest k

/-- Python `d.get(k, dflt)`. -/
def dictGet (d : PyDict) (k : String) (dflt : PyVal) : PyVal :=
  (dictFind? d k).getD dflt

/-- Python `k in d`. -/
def dictContains (d : PyDict) (k : String) : Bool :=
  (dictFind? d k).isSome

/-- Python `d[k] = v`: replace the value in place if the key exists,
otherwise append the pair at the end (dict insertion order). -/
def dictSet (d : PyDict) (k : String) (v : PyVal) : PyDict :=
  match d with
  | [] => [(k, v)]
  | (k₁, w) :: rest => if k₁ = k then (k, v) :: rest else (k₁, w) :: dictSet rest k v

/-- The character filter of `_clean_excel_invalid_chars`: the source
skips a character when `ord(char) < 32 or char in ['\x00','\x01','\x02','\x03']`
and keeps it otherwise. -/
def keepChar (c : Char) : Bool :=
  !(c.toNat < 32 || c = '\x00' || c = '\x01' || c = '\x02' || c = '\x03')

/-- The string loop of `_clean_excel_invalid_chars`: accumulate exactly
the kept characters in order. -/
def cleanStr (s : String) : String :=
  String.mk (s.data.filter keepChar)

/-- `_clean_excel_invalid_chars(text)` (src/main.py lines 49-61):
falsy or non-string input is returned unchanged (for strings only the
empty string is falsy, and cleaning it returns it unchanged as well);
otherwise the control characters are filtered out. -/
def cleanExcelInvalidChars (v : PyVal) : PyVal :=
  match v with
  | .str s => if s = "" then .str s else .str (cleanStr s)
  | v => v

/-- One output character slot of `strftime`: the decimal digit. -/
def digit (n : Nat) : Char := Nat.digitChar (n % 10)

/-- `strftime('%Y-%m-%d %H:%M:%S')` for in-range components: the year
zero-padded to four digits, every other component to two.  (For the
timestamps reachable from `_format_timestamp` — `t > 0` with a real
timezone offset — the year lies in 1969..9999, where glibc `%Y` agrees
with four-digit rendering.) -/
def fmtDateTime (y mo d h mi s : Nat) : String :=
  String.mk [digit (y / 1000), digit (y / 100), digit (y / 10), digit y, '-',
             digit (mo / 10), digit mo, '-', digit (d / 10), digit d, ' ',
             digit (h / 10), digit h, ':', digit (mi / 10), digit mi, ':',
             digit (s / 10), digit s]

/-- Civil date (year, month, day) of a day count since 1970-01-01,
the standard proleptic-Gregorian conversion used by `datetime`. -/
def civilFromDays (z₀ : Int) : Int × Int × Int :=
  let z := z₀ + 719468
  let era := Int.fdiv z 146097
  let doe := z - era * 146097
  let yoe := Int.fdiv (doe - Int.fdiv doe 1460 + Int.fdiv doe 36524 - Int.fdiv doe 146096) 365
  let y := yoe + era * 400
  let doy := doe - (365 * yoe + Int.fdiv yoe 4 - Int.fdiv yoe 100)
  let mp := Int.fdiv (5 * doy + 2) 153
  let d := doy - Int.fdiv (153 * mp + 2) 5 + 1
  let m := if mp < 10 then mp + 3 else mp - 9
  (if m ≤ 2 then y + 1 else y, m, d)

/-- `datetime.fromtimestamp(t).strftime('%Y-%m-%d %H:%M:%S')` in a local
timezone `off` seconds east of UTC; `none` where Python raises (the
resulting year falls outside `datetime`'s 1..9999 range). -/
def renderAt (off : Int) (t : Int) : Option String :=
  let total := t + off
  let days := Int.fdiv total 86400
  let secs := (Int.fmod total 86400).toNat
  let c := civilFromDays days
  if 1 ≤ c.1 ∧ c.1 ≤ 9999 then
    some (fmtDateTime c.1.toNat c.2.1.toNat c.2.2.toNat (secs / 3600) (secs / 60 % 60) (secs % 60))
  else Option.none

/-- `_format_timestamp(timestamp)` (src/main.py lines 40-47): render
only when the value is truthy, numeric, and `> 0`; on success return
the formatted string, in every other case (including a formatting
exception) return `None`. -/
def formatTimestamp (render : Int → Option String) (v : PyVal) : PyVal :=
  match numValue v with
  | some n =>
    if pyTruthy v ∧ 0 < n then
      match render n with
      | some s => .str s
      | Option.none => .none
    else .none
  | Option.none => .none

/-- Recognizer for the `YYYY-MM-DD HH:MM:SS` shape: 19 characters,
digits in the date/time slots, the right separators between them. -/
def timestampShaped (s : String) : Bool :=
  match s.data with
  | [y₁, y₂, y₃, y₄, a, mo₁, mo₂, b, d₁, d₂, sp, h₁, h₂, c₁, mi₁, mi₂, c₂, s₁, s₂] =>
    y₁.isDigit && y₂.isDigit && y₃.isDigit && y₄.isDigit && a == '-' &&
    mo₁.isDigit && mo₂.isDigit && b == '-' && d₁.isDigit && d₂.isDigit &&
    sp == ' ' && h₁.isDigit && h₂.isDigit && c₁ == ':' && mi₁.isDigit && mi₂.isDigit &&
    c₂ == ':' && s₁.isDigit && s₂.isDigit
  | _ => false

theorem isDigit_digit (n : Nat) : (digit n).isDigit = true := by
  have h : n % 10 < 10 := Nat.mod_lt _ (by omega)
  have hall : ∀ m, m < 10 → (Nat.digitChar m).isDigit = true := by decide
  exact hall _ h

theorem timestampShaped_fmtDateTime (y mo d h mi s : Nat) :
    timestampShaped (fmtDateTime y mo d h mi s) = true := by
  simp [timestampShaped, fmtDateTime, isDigit_digit]

theorem renderAt_shaped (off t : Int) (s : String) (h : renderAt off t = some s) :
    timestampShaped s = true := by
  simp only [renderAt] at h
  split at h
  · cases h
    exact timestampShaped_fmtDateTime _ _ _ _ _ _
  · cases h

theorem dictFind?_set_self (d : PyDict) (k : String) (v : PyVal) :
    dictFind? (dictSet d k v) k = some v := by
  induction d with
  | nil => simp [dictSet, dictFind?]
  | cons kv rest ih =>
    obtain ⟨k₁, w⟩ := kv
    by_cases hk : k₁ = k
    · simp [dictSet, hk, dictFind?]
    · simp [dictSet, hk, dictFind?, ih]

theorem dictFind?_set_ne (d : PyDict) (k k₂ : String) (v : PyVal) (h : k₂ ≠ k) :
    dictFind? (dictSet d k v) k₂ = dictFind? d k₂ := by
  induction d with
  | nil => simp [dictSet, dictFind?, Ne.symm h]
  | cons kv rest ih =>
    obtain ⟨k₁, w⟩ := kv
    by_cases hk : k₁ = k
    · subst hk
      simp [dictSet, dictFind?, Ne.symm h]
    · simp only [dictSet, if_neg hk, dictFind?]
      by_cases hq : k₁ = k₂ <;> simp [hq, ih]

theorem dictContains_set_self (d : PyDict) (k : String) (v : PyVal) :
    dictContains (dictSet d k v) k = true := by
  simp [dictContains, dictFind?_set_self]

theorem dictContains_set_ne (d : PyDict) (k k₂ : String) (v : PyVal) (h : k₂ ≠ k) :
    dictContains (dictSet d k v) k₂ = dictContains d k₂ := by
  simp [dictContains, dictFind?_set_ne d k k₂ v h]

theorem filter_dictSet (d : PyDict) (k : String) (v : PyVal) (P : String → Bool)
    (hP : P k = false) :
    (dictSet d k v).filter (fun kv => P kv.1) = d.filter (fun kv => P kv.1) := by
  induction d with
  | nil => simp [dictSet, hP]
  | cons kv rest ih =>
    obtain ⟨k₁, w⟩ := kv
    by_cases hk : k₁ = k
    · subst hk
      simp [dictSet, hP]
    · simp [dictSet, hk, ih, List.filter_cons]

/-- The text-field cleaning step of the member loop
(`if field in member_copy and member_copy[field]: member_copy[field] = self._clean_excel_invalid_chars(...)`). -/
def cleanTextField (d : PyDict) (f : String) : PyDict :=
  match dictFind? d f with
  | some v => if pyTruthy v then dictSet d f (cleanExcelInvalidChars v) else d
  | Option.none => d

theorem dictFind?_cleanTextField_ne (d : PyDict) (f k : String) (h : k ≠ f) :
    dictFind? (cleanTextField d f) k = dictFind? d k := by
  unfold cleanTextField
  cases hf : dictFind? d f with
  | none => rfl
  | some v =>
    by_cases ht : pyTruthy v
    · simp [ht, dictFind?_set_ne d f k _ h]
    · simp [ht]

theorem dictContains_cleanTextField_ne (d : PyDict) (f k : String) (h : k ≠ f) :
    dictContains (cleanTextField d f) k = dictContains d k := by
  simp [dictContains, dictFind?_cleanTextField_ne d f k h]

theorem filter_cleanTextField (d : PyDict) (f : String) (P : String → Bool)
    (hP : P f = false) :
    (cleanTextField d f).filter (fun kv => P kv.1) = d.filter (fun kv => P kv.1) := by
  unfold cleanTextField
  cases hf : dictFind? d f with
  | none => rfl
  | some v =>
    by_cases ht : pyTruthy v
    · simp [ht, filter_dictSet d f _ P hP]
    · simp [ht]

/-- The member-normalization block of `export_group_data`
(src/main.py lines 116-132): skip non-dict entries; copy the dict,
clean `nickname`/`card`/`title` when present and truthy, then set the
four timestamp fields from the original record's `get` (defaults
`None`, `None`, `0`, `0`). -/
def processMemberSingle (render : Int → Option String) (v : PyVal) : Option PyDict :=
  match v with
  | .dict d =>
    let c₁ := cleanTextField (cleanTextField (cleanTextField d "nickname") "card") "title"
    let c₂ := dictSet c₁ "join_time" (formatTimestamp render (dictGet d "join_time" .none))
    let c₃ := dictSet c₂ "last_sent_time" (formatTimestamp render (dictGet d "last_sent_time" .none))
    let c₄ := dictSet c₃ "title_expire_time" (formatTimestamp render (dictGet d "title_expire_time" (.int 0)))
    some (dictSet c₄ "shut_up_timestamp" (formatTimestamp render (dictGet d "shut_up_timestamp" (.int 0))))
  | _ => Option.none

/-- A group-list entry as used by the loop of `export_all_groups_data`
(`group['group_id']`, `group['group_name']`). -/
structure GroupInfo where
  group_id : Int
  group_name : String

/-- The member-normalization block of the multi-group loop
(src/main.py lines 250-272): like the single-group one, but `group_id`
and the cleaned `group_name` are stamped on the copy before the
timestamp fields are set. -/
def processMemberMulti (render : Int → Option String) (g : GroupInfo) (v : PyVal) : Option PyDict :=
  match v with
  | .dict d =>
    let c₁ := cleanTextField (cleanTextField (cleanTextField d "nickname") "card") "title"
    let c₂ := dictSet c₁ "group_id" (.int g.group_id)
    let c₃ := dictSet c₂ "group_name" (cleanExcelInvalidChars (.str g.group_name))
    let c₄ := dictSet c₃ "join_time" (formatTimestamp render (dictGet d "join_time" .none))
    let c₅ := dictSet c₄ "last_sent_time" (formatTimestamp render (dictGet d "last_sent_time" .none))
    let c₆ := dictSet c₅ "title_expire_time" (formatTimestamp render (dictGet d "title_expire_time" (.int 0)))
    some (dictSet c₆ "shut_up_timestamp" (formatTimestamp render (dictGet d "shut_up_timestamp" (.int 0))))
  | _ => Option.none

/-- The single-group sheet name, `f"Group_{group_id}"`
(src/main.py line 144); the source applies no truncation here. -/
def singleSheetName (gid : Int) : String :=
  "Group_" ++ toString gid

/-- The multi-group sheet name (src/main.py lines 278-280):
`f"G{group_id}"`, cut to its first 31 characters when longer. -/
def multiSheetName (gid : Int) : String :=
  if ("G" ++ toString gid).length > 31 then String.mk (("G" ++ toString gid).data.take 31)
  else "G" ++ toString gid

/-- Outcome of the `get_group_member_list` network call: it may raise,
return a Python list, or return a non-list value (the
`isinstance(result, list)` check in the source). -/
inductive FetchOutcome where
  | raises
  | returnsList (ms : List PyVal)
  | nonList

/-- One iteration body of the multi-group loop (src/main.py lines
236-288): fetch the group's members inside `try`; skip the group
(`continue`) when the call raises, returns a non-list, returns an
empty list, or no member survives normalization; otherwise produce the
named sheet of normalized rows. -/
def groupSheet (render : Int → Option String) (fetch : Int → FetchOutcome)
    (g : GroupInfo) : Option (String × List PyDict) :=
  match fetch g.group_id with
  | .raises => Option.none
  | .nonList => Option.none
  | .returnsList members =>
    if members.isEmpty then Option.none
    else
      let pm := members.filterMap (processMemberMulti render g)
      if pm.isEmpty then Option.none
      else some (multiSheetName g.group_id, pm)

/-- The workbook state accumulated by `export_all_groups_data`:
the ordered sheets written so far plus the `total_members` and
`processed_groups` counters. -/
structure MultiResult where
  sheets : List (String × List PyDict)
  total_members : Nat
  processed_groups : Nat

/-- One `for group in group_list` step: append the group's sheet and
bump both counters, or leave the state unchanged when the group is
skipped. -/
def groupStep (render : Int → Option String) (fetch : Int → FetchOutcome)
    (acc : MultiResult) (g : GroupInfo) : MultiResult :=
  match groupSheet render fetch g with
  | Option.none => acc
  | some (nm, rows) =>
    ⟨acc.sheets ++ [(nm, rows)], acc.total_members + rows.length, acc.processed_groups + 1⟩

/-- The whole multi-group loop (src/main.py lines 232-288). -/
def exportAllGroupsLoop (render : Int → Option String) (fetch : Int → FetchOutcome)
    (groups : List GroupInfo) : MultiResult :=
  groups.foldl (groupStep render fetch) ⟨[], 0, 0⟩

/-- ASCII whitespace stripped by Python `int(str)`. -/
def isAsciiWs (c : Char) : Bool :=
  c = ' ' || c = '\t' || c = '\n' || c = '\r' || c = '\x0b' || c = '\x0c'

/-- Digit run of a Python integer literal, allowing single underscores
between digits; accumulates the decimal value. -/
def parseDigitsCore : List Char → Nat → Option Nat
  | [], acc => some acc
  | c :: rest, acc =>
    if c.isDigit then parseDigitsCore rest (acc * 10 + (c.toNat - 48))
    else if c = '_' then
      match rest with
      | d :: rest₂ => if d.isDigit then parseDigitsCore rest₂ (acc * 10 + (d.toNat - 48)) else Option.none
      | [] => Option.none
    else Option.none

/-- Python `int(s)` on ASCII input: strip surrounding whitespace, allow
one sign, then a digit run with optional single underscores between
digits; `none` where Python raises `ValueError`.  (Non-ASCII digits and
whitespace accepted by CPython are outside the embedding.) -/
def pyIntOfString? (s : String) : Option Int :=
  let cs := ((s.data.dropWhile isAsciiWs).reverse.dropWhile isAsciiWs).reverse
  match cs with
  | [] => Option.none
  | c :: rest =>
    let signed : Int × List Char :=
      if c = '+' then (1, rest) else if c = '-' then (-1, rest) else (1, c :: rest)
    match signed.2 with
    | [] => Option.none
    | d :: _ =>
      if d.isDigit then (parseDigitsCore signed.2 0).map (fun n => signed.1 * n)
      else Option.none

/-- A message emitted back into the chat: a plain-text reply
(`event.plain_result`) or a workbook file (`event.chain_result` with a
file component), carrying the display name and the named sheets of
normalized rows it serializes. -/
inductive Emit where
  | plain (s : String)
  | file (name : String) (sheets : List (String × List PyDict))

/-- A network call performed through `client.api.call_action`. -/
inductive NetCall where
  | getGroupList
  | getMembers (gid : Int)

/-- What a command handler produced: the ordered emitted messages and
the ordered network calls it performed. -/
structure CmdOut where
  emits : List Emit
  calls : List NetCall

/-- Environment of one `导出群数据` invocation: the event's group id
string, platform name, availability of the aiocqhttp event class /
client, and the behaviour of the member-list call. -/
structure SingleEnv where
  groupIdStr : String
  platformName : String
  platformOk : Bool
  clientOk : Bool
  fetchMembers : Int → FetchOutcome

/-- The `导出群数据` command handler (src/main.py lines 63-162) as a
pure function.  The reply channel is modelled as non-raising, so the
successful path always emits the file (the fallback
`upload_group_file` branch of the source is unreachable). -/
def exportGroupDataCmd (render : Int → Option String) (ts : String)
    (env : SingleEnv) : CmdOut :=
  if env.groupIdStr = "" then ⟨[.plain "请在群聊中使用此命令"], []⟩
  else
    match pyIntOfString? env.groupIdStr with
    | Option.none => ⟨[.plain "无法识别的群号格式"], []⟩
    | some gid =>
      if env.platformName ≠ "aiocqhttp" then ⟨[.plain "此功能仅支持QQ平台"], []⟩
      else if env.platformOk = false then ⟨[.plain "内部错误：平台组件不可用"], []⟩
      else if env.clientOk = false then ⟨[.plain "无法获取平台连接，请检查日志"], []⟩
      else
        match env.fetchMembers gid with
        | .raises => ⟨[.plain "获取成员列表时出错"], [.getMembers gid]⟩
        | .nonList => ⟨[.plain "获取成员列表失败，请检查日志"], [.getMembers gid]⟩
        | .returnsList members =>
          if members.isEmpty then ⟨[.plain "成员列表为空"], [.getMembers gid]⟩
          else
            let pm := members.filterMap (processMemberSingle render)
            if pm.isEmpty then ⟨[.plain "无有效成员数据"], [.getMembers gid]⟩
            else
              ⟨[.file ("群" ++ toString gid ++ "成员列表_" ++ ts ++ ".xlsx")
                      [(singleSheetName gid, pm)]],
               [.getMembers gid]⟩

/-- Outcome of the `get_group_list` call; a returned list is modelled
as well-formed `GroupInfo` entries (the source reads `group['group_id']`
and `group['group_name']` directly). -/
inductive GroupListOutcome where
  | raises
  | nonList
  | returnsList (gs : List GroupInfo)

/-- Environment of one `导出所有群数据` invocation. -/
structure MultiEnv where
  platformName : String
  platformOk : Bool
  clientOk : Bool
  groupList : GroupListOutcome
  fetchMembers : Int → FetchOutcome

/-- The `导出所有群数据` command handler (src/main.py lines 186-342) as
a pure function, with the same non-raising reply channel as
`exportGroupDataCmd`; a raising `get_group_list` lands in the outer
`except` branch. -/
def exportAllGroupsCmd (render : Int → Option String) (ts : String)
    (env : MultiEnv) : CmdOut :=
  if env.platformName ≠ "aiocqhttp" then ⟨[.plain "此功能仅支持QQ平台"], []⟩
  else if env.platformOk = false then ⟨[.plain "内部错误：平台组件不可用"], []⟩
  else if env.clientOk = false then ⟨[.plain "无法获取平台连接，请检查日志"], []⟩
  else
    match env.groupList with
    | .raises => ⟨[.plain "导出所有群数据时出错，请检查日志"], [.getGroupList]⟩
    | .nonList => ⟨[.plain "获取群列表失败，请检查日志"], [.getGroupList]⟩
    | .returnsList gs =>
      if gs.isEmpty then ⟨[.plain "未加入任何群聊"], [.getGroupList]⟩
      else
        let progress := Emit.plain ("开始导出 " ++ toString gs.length ++ " 个群的成员信息，请稍候...")
        let r := exportAllGroupsLoop render env.fetchMembers gs
        let calls := NetCall.getGroupList :: gs.map (fun g => NetCall.getMembers g.group_id)
        if r.processed_groups = 0 then
          ⟨[progress, .plain "未能成功导出任何群的成员信息"], calls⟩
        else
          ⟨[progress,
            .file ("所有群成员列表_" ++ ts ++ ".xlsx") r.sheets,
            .plain ("已成功导出 " ++ toString r.processed_groups ++ " 个群，共 " ++
                    toString r.total_members ++ " 名成员的信息")],
           calls⟩

/-- Whether the value is a Python `str`. -/
def isStr : PyVal → Bool
  | .str _ => true
  | _ => false

theorem cleanExcel_str (s : String) :
    cleanExcelInvalidChars (.str s) = .str (String.mk (s.data.filter keepChar)) := by
  unfold cleanExcelInvalidChars cleanStr
  by_cases h : s = ""
  · subst h; rfl
  · simp [h]

theorem keepChar_eq (c : Char) : keepChar c = decide (32 ≤ c.toNat) := by
  unfold keepChar
  by_cases h : c.toNat < 32
  · simp [h, Nat.not_le.mpr h]
  · have h32 : 32 ≤ c.toNat := Nat.not_lt.mp h
    have h0 : c ≠ '\x00' := by intro e; subst e; exact absurd h32 (by decide)
    have h1 : c ≠ '\x01' := by intro e; subst e; exact absurd h32 (by decide)
    have h2 : c ≠ '\x02' := by intro e; subst e; exact absurd h32 (by decide)
    have h3 : c ≠ '\x03' := by intro e; subst e; exact absurd h32 (by decide)
    simp [h, h0, h1, h2, h3, h32]

/-- C7: the sanitizer returns non-text values unchanged, and on every
text value removes exactly the characters with code point below 32
(the blocked set 0-3 is contained in them), keeping all remaining
characters in their original order. -/
theorem c7_sanitizer_filters_controls :
    (∀ v : PyVal, isStr v = false → cleanExcelInvalidChars v = v)
  ∧ ∀ s : String, cleanExcelInvalidChars (.str s) =
      .str (String.mk (s.data.filter (fun c => decide (32 ≤ c.toNat)))) := by
  constructor
  · intro v hv
    cases v with
    | str s => simp [isStr] at hv
    | none => rfl
    | bool b => rfl
    | int n => rfl
    | dict d => rfl
  · intro s
    rw [cleanExcel_str]
    exact congrArg PyVal.str (congrArg String.mk (List.filter_congr (fun c _ => keepChar_eq c)))

/-- C7 witness: a non-string value passes through; `"a\x01b"` loses
exactly its control character. -/
theorem c7_witness :
    cleanExcelInvalidChars (PyVal.int 7) = PyVal.int 7
  ∧ cleanExcelInvalidChars (.str "a\x01b") =
      .str (String.mk ("a\x01b".data.filter (fun c => decide (32 ≤ c.toNat)))) :=
  ⟨c7_sanitizer_filters_controls.1 (PyVal.int 7) rfl,
   c7_sanitizer_filters_controls.2 "a\x01b"⟩

/-- C8: sanitization is idempotent, never lengthens a string, and is
the identity on strings free of code points below 32. -/
theorem c8_sanitizer_algebra :
    (∀ s : String, cleanExcelInvalidChars (cleanExcelInvalidChars (.str s)) =
        cleanExcelInvalidChars (.str s))
  ∧ (∀ s : String, cleanExcelInvalidChars (.str s) = .str (cleanStr s)
      ∧ (cleanStr s).length ≤ s.length)
  ∧ ∀ s : String, (∀ c ∈ s.data, 32 ≤ c.toNat) → cleanExcelInvalidChars (.str s) = .str s := by
  refine ⟨?_, ?_, ?_⟩
  · intro s
    rw [cleanExcel_str, cleanExcel_str]
    have hl : List.filter keepChar (List.filter keepChar s.data) = List.filter keepChar s.data := by
      rw [List.filter_filter]
      exact List.filter_congr (fun c _ => by cases h : keepChar c <;> simp [h])
    exact congrArg PyVal.str (congrArg String.mk hl)
  · intro s
    refine ⟨?_, ?_⟩
    · rw [cleanExcel_str]; rfl
    · show (List.filter keepChar s.data).length ≤ s.data.length
      exact List.length_filter_le _ _
  · intro s hs
    rw [cleanExcel_str]
    have : List.filter keepChar s.data = s.data := by
      rw [List.filter_eq_self]
      intro c hc
      rw [keepChar_eq]
      exact decide_eq_true (hs c hc)
    rw [this]

/-- C8 witness: idempotence, length bound, and identity at concrete
strings. -/
theorem c8_witness :
    cleanExcelInvalidChars (cleanExcelInvalidChars (.str "a\x01b")) =
      cleanExcelInvalidChars (.str "a\x01b")
  ∧ (cleanStr "a\x01b").length ≤ ("a\x01b" : String).length
  ∧ cleanExcelInvalidChars (.str "hello") = .str "hello" :=
  ⟨c8_sanitizer_algebra.1 "a\x01b",
   (c8_sanitizer_algebra.2.1 "a\x01b").2,
   c8_sanitizer_algebra.2.2 "hello" (by decide)⟩

/-- C1 counterexample: the claim demands the sentinel string
`"0000-00-00 00:00:00"` for negative or missing input and a rendered
date for `raw = 0`, but `_format_timestamp` returns `None` in all
three cases (its guard is `timestamp > 0`, and its fallback is
`return None`, never the sentinel string). -/
theorem c1_counterexample :
    formatTimestamp (renderAt 0) (PyVal.int (-1)) = PyVal.none
  ∧ formatTimestamp (renderAt 0) PyVal.none = PyVal.none
  ∧ formatTimestamp (renderAt 0) (PyVal.int 0) = PyVal.none
  ∧ PyVal.none ≠ PyVal.str "0000-00-00 00:00:00" :=
  ⟨rfl, rfl, rfl, fun h => PyVal.noConfusion h⟩

/-- C1 (amended): for a truthy numeric timestamp strictly greater than
zero the formatter returns the local-timezone rendering in the shape
`YYYY-MM-DD HH:MM:SS` whenever the platform conversion succeeds; in
every other case (zero, negative, missing, non-numeric, or
out-of-range for the date representation) it returns `None` — not a
sentinel string — without failing. -/
theorem c1_format_timestamp (off t : Int) (ht : 0 < t) :
    (∀ s, renderAt off t = some s →
        formatTimestamp (renderAt off) (.int t) = .str s ∧ timestampShaped s = true)
  ∧ (renderAt off t = Option.none → formatTimestamp (renderAt off) (.int t) = .none)
  ∧ (∀ u : Int, u ≤ 0 → formatTimestamp (renderAt off) (.int u) = .none)
  ∧ formatTimestamp (renderAt off) PyVal.none = .none
  ∧ (∀ s : String, formatTimestamp (renderAt off) (.str s) = .none) := by
  have htru : pyTruthy (.int t) = true := by
    have hne : t ≠ 0 := by omega
    simp [pyTruthy, hne]
  refine ⟨?_, ?_, ?_, rfl, fun s => rfl⟩
  · intro s hs
    refine ⟨?_, renderAt_shaped off t s hs⟩
    simp [formatTimestamp, numValue, htru, ht, hs]
  · intro hs
    simp [formatTimestamp, numValue, htru, ht, hs]
  · intro u hu
    have : ¬(pyTruthy (PyVal.int u) = true ∧ 0 < u) := by
      intro hcon
      omega
    simp only [formatTimestamp, numValue]
    rw [if_neg this]

/-- C1 witness: the epoch-plus-one-second timestamp rendered at offset
UTC+8, and the `None` results at the degenerate inputs. -/
theorem c1_format_timestamp_witness :
    formatTimestamp (renderAt 28800) (PyVal.int 1) = .str "1970-01-01 08:00:01"
  ∧ timestampShaped "1970-01-01 08:00:01" = true
  ∧ formatTimestamp (renderAt 28800) (PyVal.int (-7)) = PyVal.none := by
  have h := c1_format_timestamp 28800 1 (by decide)
  exact ⟨(h.1 "1970-01-01 08:00:01" rfl).1, (h.1 "1970-01-01 08:00:01" rfl).2,
         h.2.2.1 (-7) (by decide)⟩

theorem processMemberSingle_non_dict (render : Int → Option String) (v : PyVal)
    (h : isDict v = false) : processMemberSingle render v = Option.none := by
  cases v with
  | dict d => simp [isDict] at h
  | none => rfl
  | bool b => rfl
  | int n => rfl
  | str s => rfl

/-- The seven field names the normalization step touches. -/
def specialFields : List String :=
  ["nickname", "card", "title", "join_time", "last_sent_time", "title_expire_time", "shut_up_timestamp"]

/-- C3: a non-mapping entry yields no normalized record; a mapping
always yields a record carrying all four timestamp fields, each equal
to the formatter applied to `record.get(field, declared_default)`
(default `0` for `title_expire_time` / `shut_up_timestamp`, `None` for
the other two), and every field outside the three text fields and the
four timestamp fields passes through unchanged in source key order. -/
theorem c3_normalized_record (render : Int → Option String) (d : PyDict) (out : PyDict)
    (h : processMemberSingle render (.dict d) = some out) :
    dictContains out "join_time" = true
  ∧ dictFind? out "join_time" = some (formatTimestamp render (dictGet d "join_time" .none))
  ∧ dictContains out "last_sent_time" = true
  ∧ dictFind? out "last_sent_time" = some (formatTimestamp render (dictGet d "last_sent_time" .none))
  ∧ dictContains out "title_expire_time" = true
  ∧ dictFind? out "title_expire_time" = some (formatTimestamp render (dictGet d "title_expire_time" (.int 0)))
  ∧ dictContains out "shut_up_timestamp" = true
  ∧ dictFind? out "shut_up_timestamp" = some (formatTimestamp render (dictGet d "shut_up_timestamp" (.int 0)))
  ∧ out.filter (fun kv => !specialFields.contains kv.1) = d.filter (fun kv => !specialFields.contains kv.1)
  ∧ (∀ v : PyVal, isDict v = false → processMemberSingle render v = Option.none) := by
  simp only [processMemberSingle, Option.some.injEq] at h
  subst h
  refine ⟨?_, ?_, ?_, ?_, ?_, ?_, ?_, ?_, ?_, processMemberSingle_non_dict render⟩
  · rw [dictContains_set_ne _ _ _ _ (by decide), dictContains_set_ne _ _ _ _ (by decide),
        dictContains_set_ne _ _ _ _ (by decide), dictContains_set_self]
  · rw [dictFind?_set_ne _ _ _ _ (by decide), dictFind?_set_ne _ _ _ _ (by decide),
        dictFind?_set_ne _ _ _ _ (by decide), dictFind?_set_self]
  · rw [dictContains_set_ne _ _ _ _ (by decide), dictContains_set_ne _ _ _ _ (by decide),
        dictContains_set_self]
  · rw [dictFind?_set_ne _ _ _ _ (by decide), dictFind?_set_ne _ _ _ _ (by decide),
        dictFind?_set_self]
  · rw [dictContains_set_ne _ _ _ _ (by decide), dictContains_set_self]
  · rw [dictFind?_set_ne _ _ _ _ (by decide), dictFind?_set_self]
  · rw [dictContains_set_self]
  · rw [dictFind?_set_self]
  · rw [filter_dictSet _ "shut_up_timestamp" _ (fun k => !specialFields.contains k) (by decide),
        filter_dictSet _ "title_expire_time" _ (fun k => !specialFields.contains k) (by decide),
        filter_dictSet _ "last_sent_time" _ (fun k => !specialFields.contains k) (by decide),
        filter_dictSet _ "join_time" _ (fun k => !specialFields.contains k) (by decide),
        filter_cleanTextField _ "title" (fun k => !specialFields.contains k) (by decide),
        filter_cleanTextField _ "card" (fun k => !specialFields.contains k) (by decide),
        filter_cleanTextField _ "nickname" (fun k => !specialFields.contains k) (by decide)]

/-- C3 witness: a record missing every timestamp field still comes out
with all four of them set, the unknown field untouched. -/
theorem c3_normalized_record_witness :
    dictContains [("user_id", PyVal.int 42), ("nickname", PyVal.str "ab"),
      ("join_time", PyVal.none), ("last_sent_time", PyVal.none),
      ("title_expire_time", PyVal.none), ("shut_up_timestamp", PyVal.none)] "join_time" = true
  ∧ dictFind? [("user_id", PyVal.int 42), ("nickname", PyVal.str "ab"),
      ("join_time", PyVal.none), ("last_sent_time", PyVal.none),
      ("title_expire_time", PyVal.none), ("shut_up_timestamp", PyVal.none)] "shut_up_timestamp" =
      some (formatTimestamp (renderAt 0)
        (dictGet [("user_id", PyVal.int 42), ("nickname", PyVal.str "a\x01b")] "shut_up_timestamp" (.int 0))) := by
  have h := c3_normalized_record (renderAt 0) [("user_id", PyVal.int 42), ("nickname", PyVal.str "a\x01b")]
    [("user_id", PyVal.int 42), ("nickname", PyVal.str "ab"),
     ("join_time", PyVal.none), ("last_sent_time", PyVal.none),
     ("title_expire_time", PyVal.none), ("shut_up_timestamp", PyVal.none)] rfl
  exact ⟨h.1, h.2.2.2.2.2.2.2.1⟩

theorem groupSheet_raises (render : Int → Option String) (fetch : Int → FetchOutcome)
    (g : GroupInfo) (h : fetch g.group_id = .raises) :
    groupSheet render fetch g = Option.none := by
  simp [groupSheet, h]

theorem foldl_groupStep_skip (render : Int → Option String) (fetch : Int → FetchOutcome)
    (gs : List GroupInfo) (acc : MultiResult)
    (hall : ∀ g ∈ gs, groupSheet render fetch g = Option.none) :
    gs.foldl (groupStep render fetch) acc = acc := by
  induction gs generalizing acc with
  | nil => rfl
  | cons g rest ih =>
    rw [List.foldl_cons]
    rw [show groupStep render fetch acc g = acc from by
      simp [groupStep, hall g (by simp)]]
    exact ih acc (fun x hx => hall x (by simp [hx]))

/-- C2: a group whose member fetch raises is logged and excluded — the
multi-group loop behaves as if the group were absent — and over the
concrete list `[A (two mapping members), B (fetch raises), C (no
members)]` the workbook holds exactly the sheet for `A`, with
`processed_groups = 1` and `total_members = 2`. -/
theorem c2_failed_group_skipped (render : Int → Option String) (fetch : Int → FetchOutcome) :
    (∀ (pre post : List GroupInfo) (b : GroupInfo), fetch b.group_id = .raises →
        exportAllGroupsLoop render fetch (pre ++ b :: post) =
          exportAllGroupsLoop render fetch (pre ++ post))
  ∧ (∀ (a b c : GroupInfo) (m₁ m₂ : PyDict),
        fetch a.group_id = .returnsList [.dict m₁, .dict m₂] →
        fetch b.group_id = .raises →
        fetch c.group_id = .returnsList [] →
        (exportAllGroupsLoop render fetch [a, b, c]).sheets.map Prod.fst =
            [multiSheetName a.group_id]
      ∧ (exportAllGroupsLoop render fetch [a, b, c]).processed_groups = 1
      ∧ (exportAllGroupsLoop render fetch [a, b, c]).total_members = 2) := by
  constructor
  · intro pre post b hb
    unfold exportAllGroupsLoop
    rw [List.foldl_append, List.foldl_append, List.foldl_cons]
    rw [show groupStep render fetch (pre.foldl (groupStep render fetch) ⟨[], 0, 0⟩) b =
          pre.foldl (groupStep render fetch) ⟨[], 0, 0⟩ from by
      simp [groupStep, groupSheet_raises render fetch b hb]]
  · intro a b c m₁ m₂ ha hb hc
    have hsa : groupSheet render fetch a =
        some (multiSheetName a.group_id,
          [(processMemberMulti render a (.dict m₁)).getD [],
           (processMemberMulti render a (.dict m₂)).getD []]) := by
      simp [groupSheet, ha, List.filterMap_cons, processMemberMulti]
    have hsb : groupSheet render fetch b = Option.none := groupSheet_raises render fetch b hb
    have hsc : groupSheet render fetch c = Option.none := by
      simp [groupSheet, hc]
    simp [exportAllGroupsLoop, groupStep, hsa, hsb, hsc]

/-- The concrete fetch behaviour of the C2 scenario: group 1 returns
two mapping members, group 2 raises, group 3 returns no members. -/
def fetchC2 : Int → FetchOutcome := fun gid =>
  if gid = 1 then .returnsList [.dict [("user_id", PyVal.int 7)], .dict [("user_id", PyVal.int 8)]]
  else if gid = 2 then .raises
  else .returnsList []

/-- C2 witness: the scenario `[A, B, C]` above at concrete groups. -/
theorem c2_failed_group_skipped_witness :
    exportAllGroupsLoop (renderAt 0) fetchC2 ([⟨1, "A"⟩] ++ ⟨2, "B"⟩ :: [⟨3, "C"⟩]) =
      exportAllGroupsLoop (renderAt 0) fetchC2 ([⟨1, "A"⟩] ++ [⟨3, "C"⟩])
  ∧ (exportAllGroupsLoop (renderAt 0) fetchC2 [⟨1, "A"⟩, ⟨2, "B"⟩, ⟨3, "C"⟩]).sheets.map Prod.fst =
      [multiSheetName 1]
  ∧ (exportAllGroupsLoop (renderAt 0) fetchC2 [⟨1, "A"⟩, ⟨2, "B"⟩, ⟨3, "C"⟩]).processed_groups = 1
  ∧ (exportAllGroupsLoop (renderAt 0) fetchC2 [⟨1, "A"⟩, ⟨2, "B"⟩, ⟨3, "C"⟩]).total_members = 2 := by
  have h := c2_failed_group_skipped (renderAt 0) fetchC2
  have h₂ := h.2 ⟨1, "A"⟩ ⟨2, "B"⟩ ⟨3, "C"⟩ [("user_id", PyVal.int 7)] [("user_id", PyVal.int 8)]
    rfl rfl rfl
  exact ⟨h.1 [⟨1, "A"⟩] [⟨3, "C"⟩] ⟨2, "B"⟩ rfl, h₂.1, h₂.2.1, h₂.2.2⟩

/-- C4: when a non-empty group list is fetched but every group is
excluded (fetch error or no usable members), the loop still completes,
yielding the empty workbook `⟨[], 0, 0⟩` with `processed_groups = 0`,
after which the handler reports failure instead of delivering a
file. -/
theorem c4_zero_groups_processed (render : Int → Option String) (ts : String)
    (env : MultiEnv) (gs : List GroupInfo)
    (hplat : env.platformName = "aiocqhttp") (hpok : env.platformOk = true)
    (hcl : env.clientOk = true) (hgl : env.groupList = .returnsList gs) (hne : gs ≠ [])
    (hall : ∀ g ∈ gs, groupSheet render env.fetchMembers g = Option.none) :
    exportAllGroupsLoop render env.fetchMembers gs = ⟨[], 0, 0⟩
  ∧ (exportAllGroupsCmd render ts env).emits =
      [.plain ("开始导出 " ++ toString gs.length ++ " 个群的成员信息，请稍候..."),
       .plain "未能成功导出任何群的成员信息"] := by
  have hloop : exportAllGroupsLoop render env.fetchMembers gs = ⟨[], 0, 0⟩ :=
    foldl_groupStep_skip render env.fetchMembers gs ⟨[], 0, 0⟩ hall
  refine ⟨hloop, ?_⟩
  have hemp : gs.isEmpty = false := by
    cases gs with
    | nil => exact absurd rfl hne
    | cons g rest => rfl
  simp [exportAllGroupsCmd, hplat, hpok, hcl, hgl, hemp, hloop]

/-- The environment of the C4 witness: a single group whose member
fetch always raises. -/
def envC4 : MultiEnv :=
  ⟨"aiocqhttp", true, true, .returnsList [⟨1, "A"⟩], fun _ => .raises⟩

/-- C4 witness: the loop yields the empty workbook and the handler
reports failure. -/
theorem c4_zero_groups_processed_witness :
    exportAllGroupsLoop (renderAt 0) envC4.fetchMembers [⟨1, "A"⟩] = ⟨[], 0, 0⟩
  ∧ (exportAllGroupsCmd (renderAt 0) "20240101_000000" envC4).emits =
      [.plain ("开始导出 " ++ toString ([(⟨1, "A"⟩ : GroupInfo)] : List GroupInfo).length ++
          " 个群的成员信息，请稍候..."),
       .plain "未能成功导出任何群的成员信息"] :=
  c4_zero_groups_processed (renderAt 0) "20240101_000000" envC4 [⟨1, "A"⟩] rfl rfl rfl rfl
    (by simp)
    (by intro g hg
        rw [List.mem_singleton] at hg
        subst hg
        rfl)

theorem processMemberMulti_group_name (render : Int → Option String) (g : GroupInfo)
    (m : PyVal) (row : PyDict) (h : processMemberMulti render g m = some row) :
    dictFind? row "group_name" = some (cleanExcelInvalidChars (.str g.group_name)) := by
  cases m with
  | dict d =>
    simp only [processMemberMulti, Option.some.injEq] at h
    subst h
    rw [dictFind?_set_ne _ _ _ _ (by decide), dictFind?_set_ne _ _ _ _ (by decide),
        dictFind?_set_ne _ _ _ _ (by decide), dictFind?_set_ne _ _ _ _ (by decide),
        dictFind?_set_self]
  | none => exact absurd h (by simp [processMemberMulti])
  | bool b => exact absurd h (by simp [processMemberMulti])
  | int n => exact absurd h (by simp [processMemberMulti])
  | str s => exact absurd h (by simp [processMemberMulti])

/-- C6: every row of a multi-group sheet gets `group_name` set to the
sanitized group name, while the single-group normalization adds no
`group_name` field (it is present in the output exactly when the input
already had it). -/
theorem c6_group_name_field (render : Int → Option String) (fetch : Int → FetchOutcome)
    (g : GroupInfo) :
    (∀ nm rows, groupSheet render fetch g = some (nm, rows) →
        ∀ row ∈ rows, dictFind? row "group_name" =
          some (cleanExcelInvalidChars (.str g.group_name)))
  ∧ (∀ (d out : PyDict), processMemberSingle render (.dict d) = some out →
        dictContains out "group_name" = dictContains d "group_name") := by
  constructor
  · intro nm rows h row hrow
    cases hf : fetch g.group_id with
    | raises => simp [groupSheet, hf] at h
    | nonList => simp [groupSheet, hf] at h
    | returnsList members =>
      simp only [groupSheet, hf] at h
      split at h
      · exact Option.noConfusion h
      · split at h
        · exact Option.noConfusion h
        · have hrows : rows = members.filterMap (processMemberMulti render g) :=
            (congrArg Prod.snd (Option.some.inj h)).symm
          rw [hrows] at hrow
          obtain ⟨m, _, hms⟩ := List.mem_filterMap.mp hrow
          exact processMemberMulti_group_name render g m row hms
  · intro d out h
    simp only [processMemberSingle, Option.some.injEq] at h
    subst h
    rw [dictContains_set_ne _ _ _ _ (by decide), dictContains_set_ne _ _ _ _ (by decide),
        dictContains_set_ne _ _ _ _ (by decide), dictContains_set_ne _ _ _ _ (by decide),
        dictContains_cleanTextField_ne _ _ _ (by decide),
        dictContains_cleanTextField_ne _ _ _ (by decide),
        dictContains_cleanTextField_ne _ _ _ (by decide)]

/-- C6 witness: a multi-group row at a concrete group, and the
single-group normalization of a record without `group_name`. -/
theorem c6_group_name_field_witness :
    dictFind? [("group_id", PyVal.int 5), ("group_name", cleanExcelInvalidChars (.str "N\x01ame")),
      ("join_time", PyVal.none), ("last_sent_time", PyVal.none),
      ("title_expire_time", PyVal.none), ("shut_up_timestamp", PyVal.none)] "group_name" =
      some (cleanExcelInvalidChars (.str "N\x01ame"))
  ∧ dictContains [("user_id", PyVal.int 9), ("join_time", PyVal.none), ("last_sent_time", PyVal.none),
      ("title_expire_time", PyVal.none), ("shut_up_timestamp", PyVal.none)] "group_name" =
      dictContains [("user_id", PyVal.int 9)] "group_name" := by
  have h := c6_group_name_field (renderAt 0)
    (fun _ => FetchOutcome.returnsList [.dict []]) ⟨5, "N\x01ame"⟩
  refine ⟨?_, h.2 [("user_id", PyVal.int 9)] _ rfl⟩
  exact h.1 (multiSheetName 5)
    [[("group_id", PyVal.int 5), ("group_name", cleanExcelInvalidChars (.str "N\x01ame")),
      ("join_time", PyVal.none), ("last_sent_time", PyVal.none),
      ("title_expire_time", PyVal.none), ("shut_up_timestamp", PyVal.none)]] rfl _ (by simp)

/-- C5 counterexample: for the 33-digit group id the single-group
export's sheet name is the untruncated `"Group_" + group_id` of length
39 — not the first at most 30 characters the claim requires. -/
theorem c5_counterexample :
    (singleSheetName 123456789012345678901234567890123).length = 39
  ∧ ¬((singleSheetName 123456789012345678901234567890123).length ≤ 30) := by
  refine ⟨rfl, ?_⟩
  rw [show (singleSheetName 123456789012345678901234567890123).length = 39 from rfl]
  omega

/-- C5 (amended): the single-group export names its sheet with the
full `"Group_" + group_id`, applying no truncation; the multi-group
export names each sheet `"G" + group_id` cut to its first 31
characters, hence always at most 31 long; both derivations are total
(they never raise), even for a 33-digit group id. -/
theorem c5_sheet_name_derivation (gid : Int) :
    singleSheetName gid = "Group_" ++ toString gid
  ∧ (multiSheetName gid).length ≤ 31
  ∧ multiSheetName gid = String.mk (("G" ++ toString gid).data.take 31) := by
  refine ⟨rfl, ?_, ?_⟩
  · unfold multiSheetName
    split
    · show (List.take 31 ("G" ++ toString gid).data).length ≤ 31
      rw [List.length_take]
      omega
    · omega
  · unfold multiSheetName
    split
    · rfl
    · rw [List.take_of_length_le (by
        have hlen : ("G" ++ toString gid).length = ("G" ++ toString gid).data.length := rfl
        omega)]

/-- Whether an emitted message is a plain-text reply (as opposed to a
delivered workbook file). -/
def isPlainEmit : Emit → Bool
  | .plain _ => true
  | .file _ _ => false

/-- The environment of the C9 counterexample: the event's group id is
`"-123"` — not all-digits — on a fully available aiocqhttp platform
whose member fetch returns one mapping member. -/
def envC9 : SingleEnv :=
  ⟨"-123", "aiocqhttp", true, true,
   fun _ => .returnsList [.dict [("user_id", PyVal.int 1)]]⟩

/-- C9 counterexample: `"-123"` is not all-digits, yet `int("-123")`
succeeds, so the handler does not reply with the invalid-input message
— it proceeds to the member-list network call and delivers the file
(the single emitted message is not a plain text at all). -/
theorem c9_counterexample :
    "-123".data.all Char.isDigit = false
  ∧ (exportGroupDataCmd (renderAt 0) "20240101_000000" envC9).calls = [NetCall.getMembers (-123)]
  ∧ (exportGroupDataCmd (renderAt 0) "20240101_000000" envC9).emits.map isPlainEmit = [false] :=
  ⟨rfl, rfl, rfl⟩

/-- C9 (amended): when the event's group id string is non-empty but is
not a valid Python integer literal, the handler replies with the
invalid-input message `"无法识别的群号格式"` and performs no network
call; the rejection is on integer parsability, not on the id being
all-digits (signed ids parse and proceed). -/
theorem c9_invalid_group_id (render : Int → Option String) (ts : String) (env : SingleEnv)
    (hne : env.groupIdStr ≠ "") (hp : pyIntOfString? env.groupIdStr = Option.none) :
    exportGroupDataCmd render ts env = ⟨[.plain "无法识别的群号格式"], []⟩ := by
  simp [exportGroupDataCmd, hne, hp]

/-- The environment of the C9 witness: the group id string `"abc"`. -/
def envC9w : SingleEnv :=
  ⟨"abc", "aiocqhttp", true, true,
   fun _ => .returnsList [.dict [("user_id", PyVal.int 1)]]⟩

/-- C9 witness: the non-numeric id `"abc"` is rejected with no network
call. -/
theorem c9_invalid_group_id_witness :
    exportGroupDataCmd (renderAt 0) "20240101_000000" envC9w =
      ⟨[.plain "无法识别的群号格式"], []⟩ :=
  c9_invalid_group_id (renderAt 0) "20240101_000000" envC9w (by decide) rfl

/-- C10: when the fetched member list is non-empty but every entry is
a non-mapping, zero records survive normalization and the handler
emits only the no-valid-member-data error, performing the one fetch
call but building, serializing, and delivering no workbook. -/
theorem c10_no_valid_member_data (render : Int → Option String) (ts : String)
    (env : SingleEnv) (gid : Int) (members : List PyVal)
    (hgid : pyIntOfString? env.groupIdStr = some gid)
    (hplat : env.platformName = "aiocqhttp") (hpok : env.platformOk = true)
    (hcl : env.clientOk = true)
    (hf : env.fetchMembers gid = .returnsList members)
    (hne : members ≠ []) (hbad : ∀ m ∈ members, isDict m = false) :
    exportGroupDataCmd render ts env = ⟨[.plain "无有效成员数据"], [.getMembers gid]⟩ := by
  have hs : env.groupIdStr ≠ "" := by
    intro h
    rw [h] at hgid
    rw [show pyIntOfString? "" = Option.none from rfl] at hgid
    exact Option.noConfusion hgid
  have hemp : members.isEmpty = false := by
    cases members with
    | nil => exact absurd rfl hne
    | cons m rest => rfl
  have hpm : members.filterMap (processMemberSingle render) = [] := by
    rw [List.filterMap_eq_nil_iff]
    intro m hm
    exact processMemberSingle_non_dict render m (hbad m hm)
  simp [exportGroupDataCmd, hs, hgid, hplat, hpok, hcl, hf, hemp, hpm]

/-- The environment of the C10 witness: the fetch returns a single
non-mapping member entry. -/
def envC10 : SingleEnv :=
  ⟨"123", "aiocqhttp", true, true, fun _ => .returnsList [PyVal.int 5]⟩

/-- C10 witness: the handler stops at the no-valid-member-data
message. -/
theorem c10_no_valid_member_data_witness :
    exportGroupDataCmd (renderAt 0) "20240101_000000" envC10 =
      ⟨[.plain "无有效成员数据"], [.getMembers 123]⟩ :=
  c10_no_valid_member_data (renderAt 0) "20240101_000000" envC10 123 [PyVal.int 5]
    rfl rfl rfl rfl rfl (by simp)
    (by intro m hm
        rw [List.mem_singleton] at hm
        subst hm
        rfl)

end GroupInfoExport
